import Mathlib

/-!
Shallow embedding of the cleanlab integration of the Hub repository
(src/hub/integrations/cleanlab/cleanlab.py and
src/hub/integrations/cleanlab/label_issues.py), together with theorems
settling the specification claims about it.

External collaborators (the sklearn classifier interface, the cleanlab
issue-finding and quality-scoring functions, the StratifiedKFold splitter
and the small hub utility helpers that are not among the provided source
files) are modelled as explicit parameters or as definitions whose doc
comment starts with "Modelled from the spec:".
-/

deriving instance DecidableEq for Except

namespace HubCleanlab

/-- Errors of the embedded code. Python exceptions are represented as values:
`readOnlyValueError` is the ValueError raised by clean_labels when the dataset
is read-only (cleanlab.py lines 79-82), `noIssueDataValueError` is the
ValueError raised by clean_view when no issue tensor is available
(cleanlab.py lines 166-169), `checkoutError` is hub CheckoutError,
`unboundLocalError` is the Python UnboundLocalError for reading a never
assigned local variable, `tensorAlreadyExistsError` and `configurationError`
are the spec taxonomy names for the write-collision and bad-fold-count
failures. -/
inductive PyErr where
  | readOnlyValueError
  | noIssueDataValueError
  | checkoutError
  | unboundLocalError
  | tensorAlreadyExistsError
  | configurationError
  deriving DecidableEq, Repr

/-- Diagnostic printed output, modelled as structured log entries. Each
constructor corresponds to one print site: `commitBranchNote` to cleanlab.py
lines 94-97, `cvHeader` to label_issues.py lines 27-31, `foldProgress` to
lines 36-37, `cvAccuracy` to lines 53-56 (carrying the accuracy as a
match-count over a total), `usingPredProbs` to lines 131-132,
`identifiedIssues` to lines 142-143, `pruning` to lines 69-70,
`remainingClean` to lines 75-76 and `fittingFinal` to lines 81-82. -/
inductive LogEntry where
  | commitBranchNote (branch : String)
  | cvHeader (folds : Nat)
  | foldProgress (fold : Nat) (folds : Nat)
  | cvAccuracy (agree : Nat) (total : Nat)
  | usingPredProbs
  | identifiedIssues (n : Nat)
  | pruning (n : Nat)
  | remainingClean (n : Nat)
  | fittingFinal
  deriving DecidableEq, Repr

variable {α : Type} {σ : Type}

/-- The sklearn-style classifier interface used by the code: a mutable model
with an internal training state `state`, an untrained initial state `init`
that `clone` resets to, a training function `fitF` and a per-sample
probability predictor `predictF`. -/
structure Model (α σ : Type) where
  state : σ
  init : σ
  fitF : σ → List α → σ
  predictF : σ → α → List ℚ

/-- Embedding of `sklearn.base.clone`: a fresh untrained copy of the model,
with the same hyperparameters but the initial (unfitted) state. -/
def clone (m : Model α σ) : Model α σ := { m with state := m.init }

/-- Embedding of `model.fit(X=ds)`: train on the given sub-dataset. -/
def Model.fit (m : Model α σ) (X : List α) : Model α σ :=
  { m with state := m.fitF m.state X }

/-- Embedding of `model.predict_proba(X=ds)`: one probability row per sample. -/
def Model.predict_proba (m : Model α σ) (X : List α) : List (List ℚ) :=
  X.map (m.predictF m.state)

/-- Embedding of `dataset[idx.tolist()]`: indexing a dataset by a list of
integer positions yields the order-preserving view of those positions. -/
def subsetByIdx (ds : List α) (idx : List Nat) : List α :=
  idx.filterMap (fun i => ds[i]?)

/-- Modelled from the spec: `subset_dataset` from
hub.integrations.cleanlab.utils is imported by the source but its file is not
among the provided sources. Per section 4.5 (DatasetSubsetView) it restricts a
dataset to the positions where the boolean mask is true, preserving relative
order. -/
def subset_dataset (ds : List α) (mask : List Bool) : List α :=
  ((ds.zip mask).filter (fun p => p.2)).map (fun p => p.1)

/-- Helper for `np_argmax`: scan the tail keeping the first index of the
largest value seen so far. -/
def argmaxGo (best : Nat × ℚ) (j : Nat) : List ℚ → Nat
  | [] => best.1
  | x :: xs => if best.2 < x then argmaxGo (j, x) (j + 1) xs else argmaxGo best (j + 1) xs

/-- Embedding of `np.argmax` on one row: index of the first maximal entry
(0 on an empty row). -/
def np_argmax : List ℚ → Nat
  | [] => 0
  | x :: xs => argmaxGo (0, x) 1 xs

/-- Association-list lookup with default 0, used to count per-class
occurrences while assigning folds. -/
def lookupD : List (Nat × Nat) → Nat → Nat
  | [], _ => 0
  | (a, b) :: t, k => if a = k then b else lookupD t k

/-- Modelled from the spec: the per-class round-robin fold assignment
performed by the external stratified splitter. Walking the indices in the
given order, the c-th index of a class (counting from 0) is assigned to fold
c mod K, so every class with at least K occurrences appears in every holdout
fold (section 4.1 stratification). Returns (index, fold) pairs in order. -/
def foldAssign (K : Nat) (labels : List Nat) (order : List Nat) : List (Nat × Nat) :=
  (order.foldl
    (fun (acc : List (Nat × Nat) × List (Nat × Nat)) i =>
      let lab := labels.getD i 0
      let c := lookupD acc.2 lab
      ((i, c % K) :: acc.1, (lab, c + 1) :: acc.2))
    ([], [])).1.reverse

/-- Holdout index list of fold `f` under the round-robin assignment. -/
def holdoutFold (K : Nat) (labels : List Nat) (order : List Nat) (f : Nat) : List Nat :=
  ((foldAssign K labels order).filter (fun p => p.2 == f)).map (fun p => p.1)

/-- Modelled from the spec: the stratified K-fold split over samples taken in
the given order. Each fold pairs the training indices (all dataset positions
not in the holdout) with its holdout indices (section 4.1). -/
def stratSplit (K : Nat) (order : List Nat) (labels : List Nat) :
    List (List Nat × List Nat) :=
  (List.range K).map (fun f =>
    let holdout := holdoutFold K labels order f
    ((List.range labels.length).filter (fun i => !(holdout.contains i)), holdout))

/-- Embedding of the sklearn StratifiedKFold object: the fold count and the
shuffle flag it was constructed with. -/
structure StratifiedKFold where
  n_splits : Nat
  shuffle : Bool
  deriving DecidableEq, Repr

/-- Modelled from the spec: `kfold.split(X, y)` of the external sklearn
splitter. When `shuffle` is true the samples are first permuted by a fresh
random permutation, supplied here explicitly as `rng`; when false the dataset
order is used (section 4.1: shuffling uses a fresh random permutation per
call). -/
def StratifiedKFold.split (kf : StratifiedKFold) (rng : List Nat)
    (labels : List Nat) : List (List Nat × List Nat) :=
  let order := if kf.shuffle then rng else List.range labels.length
  stratSplit kf.n_splits order labels

/-- Embedding of label_issues.py line 25: the cross-validation object is
constructed as `StratifiedKFold(n_splits=folds, shuffle=True)`; the shuffle
argument is the literal True. -/
def cvKFold (folds : Nat) : StratifiedKFold := { n_splits := folds, shuffle := true }

/-- The fold list the estimator iterates over (label_issues.py line 34):
the split of the kfold object of line 25, given the per-call randomness. -/
def estimatorSplits (folds : Nat) (rng : List Nat) (labels : List Nat) :
    List (List Nat × List Nat) :=
  (cvKFold folds).split rng labels

/-- Number of occurrences of class `c` in the label vector. -/
def countLabel (labels : List Nat) (c : Nat) : Nat :=
  (labels.filter (fun l => l == c)).length

/-- Count of the rarest class (0 when there are no labels). -/
def minClassCount (labels : List Nat) : Nat :=
  match labels.dedup.map (countLabel labels) with
  | [] => 0
  | x :: xs => xs.foldl Nat.min x

/-- Modelled from the spec: the FoldPartitioner contract of section 4.1. The
fold-partitioning step fails with ConfigurationError when K is below 2 or
when K exceeds the count of the rarest class (stratification impossible), and
otherwise returns the stratified split. The validation itself lives in the
external splitting routine, not in the provided sources; the spec makes it an
explicit precondition. -/
def foldPartitioner (labels : List Nat) (K : Nat) :
    Except PyErr (List (List Nat × List Nat)) :=
  if K < 2 then .error .configurationError
  else if minClassCount labels < K then .error .configurationError
  else .ok (stratSplit K (List.range labels.length) labels)

/-- Embedding of `pred_probs[holdout_idx] = pred_probs_cross_val`
(label_issues.py line 51): write the given rows at the given positions of the
matrix, in order. -/
def scatterRows : List (List ℚ) → List Nat → List (List ℚ) → List (List ℚ)
  | m, i :: is, r :: rs => scatterRows (m.set i r) is rs
  | m, _, _ => m

/-- One iteration of the cross-validation loop (label_issues.py lines 34-51):
clone a fresh untrained model, fit it on the training subset view, predict
probabilities for the holdout subset view, and write those rows into the
matrix at the holdout positions. -/
def cvStep (dataset : List α) (model : Model α σ) (acc : List (List ℚ))
    (s : List Nat × List Nat) : List (List ℚ) :=
  let model_copy := clone model
  let ds_train := subsetByIdx dataset s.1
  let ds_holdout := subsetByIdx dataset s.2
  let fitted := Model.fit model_copy ds_train
  let pred_probs_cross_val := Model.predict_proba fitted ds_holdout
  scatterRows acc s.2 pred_probs_cross_val

/-- The cross-validation loop of label_issues.py lines 22 and 34-51: starting
from the zero matrix of shape (N, num_classes), process each (train, holdout)
fold in order. The function returns the matrix as is; the source contains no
post-loop completeness check and no raise statement. -/
def estimateFromSplits (dataset : List α) (model : Model α σ) (num_classes : Nat)
    (splits : List (List Nat × List Nat)) : List (List ℚ) :=
  splits.foldl (cvStep dataset model)
    (List.replicate dataset.length (List.replicate num_classes 0))

/-- Number of positions where the two label vectors agree (the numerator of
`sklearn.metrics.accuracy_score`). -/
def accuracyCount (labels preds : List Nat) : Nat :=
  ((labels.zip preds).filter (fun p => p.1 == p.2)).length

/-- Embedding of `estimate_cv_predicted_probabilities` (label_issues.py lines
11-58). The kfold object is built with shuffle hardcoded to True (line 25);
`rng` stands for the fresh randomness sklearn draws for that shuffle. The
verbose flag only contributes log entries (the header of lines 27-31, the
per-fold progress of lines 36-37 and the held-out accuracy summary of lines
53-56); the matrix does not depend on it. -/
def estimate_cv_predicted_probabilities (dataset : List α) (labels : List Nat)
    (model : Model α σ) (folds : Nat) (num_classes : Nat) (verbose : Bool)
    (rng : List Nat) : List (List ℚ) × List LogEntry :=
  let splits := estimatorSplits folds rng labels
  let pred_probs := estimateFromSplits dataset model num_classes splits
  let headerLog := if verbose then [LogEntry.cvHeader folds] else []
  let foldLog :=
    if verbose then
      (List.range splits.length).map (fun f => LogEntry.foldProgress (f + 1) folds)
    else []
  let accLog :=
    if verbose then
      let predicted_labels := pred_probs.map np_argmax
      [LogEntry.cvAccuracy (accuracyCount labels predicted_labels) labels.length]
    else []
  (pred_probs, headerLog ++ foldLog ++ accLog)

/-- Embedding of `get_predicted_labels` (label_issues.py lines 61-93): negate
the issue mask, build the clean subset view, clone a fresh model, fit it on
the clean subset only, predict probabilities for the entire original dataset
and reduce each row with argmax. The source performs no emptiness check on
the clean subset and contains no raise statement. -/
def get_predicted_labels (dataset : List α) (label_issues : List Bool)
    (model : Model α σ) (verbose : Bool) : List Nat × List LogEntry :=
  let numIssues := (label_issues.filter (fun b => b)).length
  let log1 := if verbose then [LogEntry.pruning numIssues] else []
  let label_issues_mask := label_issues.map (fun b => !b)
  let cleaned_dataset := subset_dataset dataset label_issues_mask
  let log2 := if verbose then [LogEntry.remainingClean cleaned_dataset.length] else []
  let model_copy := clone model
  let log3 := if verbose then [LogEntry.fittingFinal] else []
  let fitted := Model.fit model_copy cleaned_dataset
  let pred_probs := Model.predict_proba fitted dataset
  let predicted_labels := pred_probs.map np_argmax
  (predicted_labels, log1 ++ log2 ++ log3)

/-- Modelled from the spec: `get_num_classes` from
hub.integrations.common.utils is imported by the source but its file is not
among the provided sources. Per section 3 the class count is the number of
distinct labels observed. -/
def get_num_classes (labels : List Nat) : Nat := labels.dedup.length

/-- Embedding of `get_label_issues` (label_issues.py lines 96-148). The
external collaborators are explicit parameters: `get_labels` (from
hub.integrations.common.utils, reads the label tensor), `find_label_issues`
and `get_label_quality_scores` (the cleanlab library functions, with their
keyword configuration already applied), and `rng` (the randomness of the fold
shuffle). Returns the (mask, scores, predicted labels) triple and the log. -/
def get_label_issues (get_labels : List α → List Nat)
    (find_label_issues : List Nat → List (List ℚ) → List Bool)
    (get_label_quality_scores : List Nat → List (List ℚ) → List ℚ)
    (dataset : List α) (model : Model α σ) (folds : Nat) (verbose : Bool)
    (rng : List Nat) : (List Bool × List ℚ × List Nat) × List LogEntry :=
  let labels := get_labels dataset
  let num_classes := get_num_classes labels
  let cv := estimate_cv_predicted_probabilities dataset labels model folds
    num_classes verbose rng
  let pred_probs := cv.1
  let log1 := if verbose then [LogEntry.usingPredProbs] else []
  let label_issues := find_label_issues labels pred_probs
  let label_quality_scores := get_label_quality_scores labels pred_probs
  let log2 :=
    if verbose then [LogEntry.identifiedIssues ((label_issues.filter (fun b => b)).length)]
    else []
  let pl := get_predicted_labels dataset label_issues model verbose
  ((label_issues, label_quality_scores, pl.1), cv.2 ++ log1 ++ log2 ++ pl.2)

/-- Name of the tensor group created by the write step. -/
def labelIssuesGroup : String := "label_issues"

/-- Name of the persisted issue-mask tensor checked by clean_view
(cleanlab.py line 161). -/
def isLabelIssueName : String := "label_issues/is_label_issue"

/-- Name of the persisted quality-score tensor. -/
def labelQualityScoresName : String := "label_issues/label_quality_scores"

/-- Name of the persisted predicted-labels tensor. -/
def predictedLabelsName : String := "label_issues/predicted_labels"

/-- The versioned Hub dataset as seen by cleanlab.py: the samples, the list of
existing branches, the currently active branch, the read-only flag, the names
of the tensors present, and the contents of the three persisted label-issue
tensors (meaningful when their names are present). -/
structure HubDataset (α : Type) where
  samples : List α
  branches : List String
  branch : String
  read_only : Bool
  tensorNames : List String
  is_label_issue : List Bool
  label_quality_scores : List ℚ
  predicted_labels : List Nat
  deriving DecidableEq, Repr

/-- Embedding of `dataset.checkout(b, create)`: switching to an existing
branch succeeds, switching to a missing branch succeeds when `create` is set
(registering the new branch) and otherwise raises CheckoutError. -/
def checkout (ds : HubDataset α) (b : String) (create : Bool) :
    Except PyErr (HubDataset α) :=
  if ds.branches.contains b then .ok { ds with branch := b }
  else if create then .ok { ds with branches := b :: ds.branches, branch := b }
  else .error .checkoutError

/-- Embedding of cleanlab.py lines 89-92: try `checkout(branch)` and on
CheckoutError fall back to `checkout(branch, create=True)`. -/
def checkoutOrCreate (ds : HubDataset α) (b : String) : HubDataset α :=
  match checkout ds b false with
  | .ok d => d
  | .error _ =>
    match checkout ds b true with
    | .ok d => d
    | .error _ => ds

/-- Python truthiness of the `branch` argument: `if branch:` is false for
None and for the empty string. -/
def branchTruthy : Option String → Bool
  | none => false
  | some s => !(s == "")

/-- Insert a tensor name if it is not already present. -/
def insertName (n : String) (l : List String) : List String :=
  if l.contains n then l else n :: l

/-- Modelled from the spec: `create_label_issues_tensors` is imported by
clean_labels but its source file is not among the provided sources. Per
section 4.6 step 3: if the target tensor group already exists, proceed only
when the overwrite flag is set, otherwise fail with TensorAlreadyExistsError
and perform no write; otherwise write the issue-mask, quality-score and
predicted-labels tensors into the group. -/
def create_label_issues_tensors (ds : HubDataset α) (label_issues : List Bool)
    (lqs : List ℚ) (pl : List Nat) (overwrite : Bool) :
    Except PyErr (HubDataset α) :=
  if ds.tensorNames.contains labelIssuesGroup && !overwrite then
    .error .tensorAlreadyExistsError
  else
    .ok { ds with
      tensorNames := insertName predictedLabelsName (insertName labelQualityScoresName
        (insertName isLabelIssueName (insertName labelIssuesGroup ds.tensorNames))),
      is_label_issue := label_issues,
      label_quality_scores := lqs,
      predicted_labels := pl }

/-- The branch-restoration epilogue of clean_labels (cleanlab.py lines
126-130): when the branch argument is truthy, read the local variable
`default_branch` — which raises UnboundLocalError when it was never assigned
— and check out the saved branch; otherwise return the results directly. -/
def restorePhase (ds : HubDataset α) (branch : Option String)
    (default_branch : Option String) (log : List LogEntry)
    (results : List Bool × List ℚ × List Nat) :
    HubDataset α × List LogEntry × Except PyErr (List Bool × List ℚ × List Nat) :=
  if branchTruthy branch then
    match default_branch with
    | none => (ds, log, .error .unboundLocalError)
    | some db =>
      match checkout ds db false with
      | .ok d => (d, log, .ok results)
      | .error e => (ds, log, .error e)
  else (ds, log, .ok results)

/-- Embedding of `clean_labels` (cleanlab.py lines 8-130), restricted to the
arguments the control flow depends on. `gli` stands for the call to
get_label_issues of lines 99-114 with all classifier configuration applied;
it returns the result triple and its printed output. The embedding returns
the final dataset state (the dataset object is mutated in place, so its state
is observable even when an exception propagates), the log, and either the
result triple or the raised error. Faithful to the source, the variable
`default_branch` is assigned only inside the `create_tensors` block (lines
84-86), the tensor-write step of lines 116-124 is not wrapped in any
try/finally, and the restoration of lines 126-128 runs only when control
reaches it. -/
def clean_labels (gli : HubDataset α → (List Bool × List ℚ × List Nat) × List LogEntry)
    (dataset : HubDataset α) (create_tensors overwrite : Bool)
    (branch : Option String) (verbose : Bool) :
    HubDataset α × List LogEntry × Except PyErr (List Bool × List ℚ × List Nat) :=
  if create_tensors && dataset.read_only then
    (dataset, [], .error .readOnlyValueError)
  else
    let switching := create_tensors && branchTruthy branch
    let ds1 := if switching then checkoutOrCreate dataset (branch.getD "") else dataset
    let default_branch : Option String :=
      if switching then some dataset.branch else none
    let log1 :=
      if create_tensors && verbose then [LogEntry.commitBranchNote ds1.branch] else []
    let r := gli ds1
    let log2 := log1 ++ r.2
    if create_tensors then
      match create_label_issues_tensors ds1 r.1.1 r.1.2.1 r.1.2.2 overwrite with
      | .error e => (ds1, log2, .error e)
      | .ok ds2 => restorePhase ds2 branch default_branch log2 r.1
    else restorePhase ds1 branch default_branch log2 r.1

/-- The spec taxonomy name (section 7) for the error clean_view raises when
no mask is supplied and none is persisted; in the source it is the ValueError
of cleanlab.py lines 166-169. -/
def NoIssueDataError : PyErr := .noIssueDataValueError

/-- Embedding of `clean_view` (cleanlab.py lines 133-171): with a mask
supplied, return the subset view of the negated mask; with the mask omitted,
use the persisted `label_issues/is_label_issue` tensor when present and
otherwise raise. -/
def clean_view (dataset : HubDataset α) (label_issues : Option (List Bool)) :
    Except PyErr (List α) :=
  match label_issues with
  | some li => .ok (subset_dataset dataset.samples (li.map (fun b => !b)))
  | none =>
    if dataset.tensorNames.contains isLabelIssueName then
      .ok (subset_dataset dataset.samples (dataset.is_label_issue.map (fun b => !b)))
    else .error NoIssueDataError

/-! Concrete instances used by witnesses and counterexamples. -/

/-- A concrete classifier over Nat samples whose state counts fitted samples. -/
def mA : Model Nat Nat :=
  { state := 0, init := 0, fitF := fun s X => s + X.length + 1,
    predictF := fun s a => [(s : ℚ), (a : ℚ)] }

/-- A concrete classifier whose state remembers the last training subset. -/
def mList : Model Nat (List Nat) :=
  { state := [], init := [], fitF := fun _ X => X,
    predictF := fun s a => [(s.length : ℚ), (a : ℚ)] }

def mainBranch : String := "main"

def fixBranch : String := "fix"

def devBranch : String := "dev"

/-- A writable two-sample dataset on branch main whose label_issues tensor
group already exists. -/
def dsMain : HubDataset Nat :=
  { samples := [1, 2], branches := [mainBranch], branch := mainBranch,
    read_only := false, tensorNames := [labelIssuesGroup], is_label_issue := [],
    label_quality_scores := [], predicted_labels := [] }

/-- A dataset with a persisted issue-mask tensor flagging its second sample. -/
def dsIssue : HubDataset Nat :=
  { dsMain with tensorNames := [isLabelIssueName], is_label_issue := [false, true] }

/-- A concrete stand-in for the get_label_issues call inside clean_labels. -/
def gliA : HubDataset Nat → (List Bool × List ℚ × List Nat) × List LogEntry :=
  fun _ => (([true, false], [1, 2], [0, 1]), [LogEntry.usingPredProbs])

/-- A concrete two-fold partition of four indices. -/
def splitsW : List (List Nat × List Nat) := [([0, 1], [2, 3]), ([2, 3], [0, 1])]

/-- The fold of `splitsW` holding out indices 2 and 3. -/
def foldW : List Nat × List Nat := ([0, 1], [2, 3])

/-- A reversing random permutation of four indices. -/
def rngRev : List Nat := [3, 2, 1, 0]

/-- Four samples of one class. -/
def labelsFour : List Nat := [0, 0, 0, 0]

/-! Helper lemmas. -/

theorem subset_dataset_not_mask (ds : List α) (mask : List Bool) :
    subset_dataset ds (mask.map (fun b => !b)) =
      ((ds.zip mask).filter (fun p => !p.2)).map (fun p => p.1) := by
  simp only [subset_dataset, List.zip_map_right, List.filter_map, List.map_map]
  have h1 : ((fun p : α × Bool => p.2) ∘ Prod.map id fun b => !b) =
      fun p : α × Bool => !p.2 := by
    funext p; cases p; rfl
  have h2 : ((fun p : α × Bool => p.1) ∘ Prod.map id fun b => !b) =
      fun p : α × Bool => p.1 := by
    funext p; cases p; rfl
  rw [h1, h2]

theorem subset_dataset_all_false (ds : List α) (mask : List Bool)
    (h : ∀ b ∈ mask, b = false) : subset_dataset ds mask = [] := by
  have : (ds.zip mask).filter (fun p => p.2) = [] := by
    rw [List.filter_eq_nil_iff]
    intro p hp
    have hb := (List.of_mem_zip hp).2
    simp [h p.2 hb]
  simp [subset_dataset, this]

/-! Claim theorems. -/

/-- Claim C7 (confirmed): for every dataset of N samples and every issue
mask, the retraining step returns a predicted-label vector of length N; the
classifier is fit only on the subset view of the non-flagged samples, yet a
prediction is produced for every sample of the entire original dataset,
including the flagged ones. -/
theorem retrain_covers_entire_dataset (ds : List α) (mask : List Bool)
    (model : Model α σ) (v : Bool) :
    (get_predicted_labels ds mask model v).1.length = ds.length ∧
    (get_predicted_labels ds mask model v).1 =
      ds.map (fun a => np_argmax (model.predictF
        (model.fitF model.init (subset_dataset ds (mask.map (fun b => !b)))) a)) := by
  constructor <;>
    simp [get_predicted_labels, Model.predict_proba, Model.fit, clone,
      List.map_map, Function.comp]

/-- Claim C9 (confirmed): the verbose flag is observability only. For fixed
dataset, labels, classifier, fold count and fold randomness, the returned
(issue mask, quality scores, predicted labels) triple of the pipeline is
identical for verbose true and verbose false. -/
theorem verbose_noninterference (get_labels : List α → List Nat)
    (find_label_issues : List Nat → List (List ℚ) → List Bool)
    (get_label_quality_scores : List Nat → List (List ℚ) → List ℚ)
    (ds : List α) (model : Model α σ) (folds : Nat) (rng : List Nat) :
    (get_label_issues get_labels find_label_issues get_label_quality_scores
      ds model folds true rng).1 =
    (get_label_issues get_labels find_label_issues get_label_quality_scores
      ds model folds false rng).1 := rfl

/-- Claim C5 counterexample: with every sample flagged, get_predicted_labels
does not fail — there is no InsufficientCleanDataError and no emptiness check
anywhere in the source. The clean subset is empty, the classifier is fit on
it, and a full-length prediction vector is returned. -/
theorem retrain_empty_subset_cex :
    subset_dataset [5, 7] (([true, true] : List Bool).map (fun b => !b)) = ([] : List Nat) ∧
    get_predicted_labels [5, 7] [true, true] mA false = ([1, 1], []) := by decide

/-- Claim C5 amended: when the issue mask flags every sample, the retraining
step performs no emptiness check: it fits the fresh classifier on the empty
clean subset and still returns a prediction for every sample of the original
dataset; no InsufficientCleanDataError is raised. -/
theorem retrain_no_emptiness_check (ds : List α) (model : Model α σ) (v : Bool)
    (mask : List Bool) (hall : ∀ b ∈ mask, b = true) :
    subset_dataset ds (mask.map (fun b => !b)) = [] ∧
    (get_predicted_labels ds mask model v).1 =
      ds.map (fun a => np_argmax (model.predictF (model.fitF model.init []) a)) := by
  have hsub : subset_dataset ds (mask.map (fun b => !b)) = [] := by
    apply subset_dataset_all_false
    intro b hb
    rcases List.mem_map.mp hb with ⟨c, hc, rfl⟩
    simp [hall c hc]
  refine ⟨hsub, ?_⟩
  simp [get_predicted_labels, Model.predict_proba, Model.fit, clone, hsub,
    List.map_map, Function.comp]

theorem retrain_no_emptiness_check_witness :
    subset_dataset [5, 7] (([true, true] : List Bool).map (fun b => !b)) = ([] : List Nat) ∧
    (get_predicted_labels [5, 7] [true, true] mA false).1 =
      ([5, 7] : List Nat).map (fun a => np_argmax (mA.predictF (mA.fitF mA.init []) a)) :=
  retrain_no_emptiness_check [5, 7] mA false [true, true] (by decide)

/-- Claim C8 (confirmed): clean_view with a mask supplied returns the subset
view selecting exactly the positions where the mask is false; with the mask
omitted it uses the persisted issue-mask tensor when present, and otherwise
fails with the no-issue-data error. -/
theorem clean_view_spec (ds : HubDataset α) (mask : List Bool) :
    clean_view ds (some mask) =
      .ok (((ds.samples.zip mask).filter (fun p => !p.2)).map (fun p => p.1)) ∧
    (ds.tensorNames.contains isLabelIssueName = true →
      clean_view ds none =
        .ok (((ds.samples.zip ds.is_label_issue).filter (fun p => !p.2)).map (fun p => p.1))) ∧
    (ds.tensorNames.contains isLabelIssueName = false →
      clean_view ds none = .error NoIssueDataError) := by
  refine ⟨?_, fun h => ?_, fun h => ?_⟩
  · simp [clean_view, subset_dataset_not_mask]
  · have hm : isLabelIssueName ∈ ds.tensorNames := by simpa using h
    simp [clean_view, hm, subset_dataset_not_mask]
  · have hm : isLabelIssueName ∉ ds.tensorNames := by simpa using h
    simp [clean_view, hm]

theorem clean_view_spec_witness :
    clean_view dsMain (some [true, false]) =
      .ok (((dsMain.samples.zip [true, false]).filter (fun p => !p.2)).map (fun p => p.1)) ∧
    clean_view dsIssue none =
      .ok (((dsIssue.samples.zip dsIssue.is_label_issue).filter (fun p => !p.2)).map
        (fun p => p.1)) ∧
    clean_view dsMain none = .error NoIssueDataError :=
  ⟨(clean_view_spec dsMain [true, false]).1,
   (clean_view_spec dsIssue []).2.1 (by decide),
   (clean_view_spec dsMain []).2.2 (by decide)⟩

/-- Claim C10 (confirmed): calling clean_labels with a non-empty branch name
but create_tensors false leaves the local default_branch unassigned (its
assignment at line 86 is guarded by create_tensors), yet the restoration step
at lines 126-128 still reads it, so the call raises UnboundLocalError after
the entire label-issue computation has completed (its diagnostic output is in
the returned log) instead of returning the results. -/
theorem clean_labels_unbound_default_branch
    (gli : HubDataset α → (List Bool × List ℚ × List Nat) × List LogEntry)
    (ds : HubDataset α) (b : String) (ow v : Bool) (hb : (b == "") = false) :
    clean_labels gli ds false ow (some b) v =
      (ds, (gli ds).2, .error .unboundLocalError) := by
  simp [clean_labels, restorePhase, branchTruthy, hb]

theorem clean_labels_unbound_default_branch_witness :
    clean_labels gliA dsMain false false (some devBranch) false =
      (dsMain, (gliA dsMain).2, .error .unboundLocalError) :=
  clean_labels_unbound_default_branch gliA dsMain devBranch false false (by decide)

/-- Claim C2 counterexample: the estimator builds its fold splitter with
shuffle hardcoded to true (label_issues.py line 25) — neither the estimator
nor the source get_label_issues has a shuffle parameter — and the resulting
fold partition permutes the samples: with a reversing random permutation it
differs from the unshuffled, dataset-order split. Hence disabling the caller
shuffle option does not yield an unpermuted fold partition. -/
theorem fold_shuffle_not_caller_controlled_cex :
    (cvKFold 2).shuffle = true ∧
    estimatorSplits 2 rngRev labelsFour ≠
      stratSplit 2 (List.range labelsFour.length) labelsFour := by decide

/-- Claim C2 amended: fold shuffling is unconditionally enabled. The
estimator constructs StratifiedKFold with shuffle equal to the literal true,
so the fold partition always follows the fresh per-call random order rng and
never the dataset order; the caller shuffle option (which governs data
loading during training) is not consulted by the fold split. -/
theorem fold_shuffle_always_on (folds : Nat) (rng labels : List Nat) :
    (cvKFold folds).shuffle = true ∧
    estimatorSplits folds rng labels = stratSplit folds rng labels := ⟨rfl, rfl⟩

/-- Claim C4 (confirmed, spec-modelled): the fold-partitioning step fails
with ConfigurationError when K is below 2 or when K exceeds the count of the
rarest class, and succeeds when the rarest class has exactly K members (for
K at least 2, as the K-below-2 clause of the claim itself requires). -/
theorem foldPartitioner_validation (labels : List Nat) (K : Nat) :
    (K < 2 → foldPartitioner labels K = .error .configurationError) ∧
    (minClassCount labels < K → foldPartitioner labels K = .error .configurationError) ∧
    (2 ≤ K → minClassCount labels = K →
      foldPartitioner labels K = .ok (stratSplit K (List.range labels.length) labels)) := by
  refine ⟨fun h => ?_, fun h => ?_, fun h2 hK => ?_⟩ <;>
    · unfold foldPartitioner
      split_ifs <;> first | rfl | omega

theorem foldPartitioner_validation_witness :
    foldPartitioner [0, 0, 1, 1] 1 = .error .configurationError ∧
    foldPartitioner [0, 0, 1, 1] 3 = .error .configurationError ∧
    foldPartitioner [0, 0, 1, 1] 2 =
      .ok (stratSplit 2 (List.range ([0, 0, 1, 1] : List Nat).length) [0, 0, 1, 1]) :=
  ⟨(foldPartitioner_validation [0, 0, 1, 1] 1).1 (by decide),
   (foldPartitioner_validation [0, 0, 1, 1] 3).2.1 (by decide),
   (foldPartitioner_validation [0, 0, 1, 1] 2).2.2 (by decide) (by decide)⟩

/-! Lemmas about the cross-validation loop. -/

theorem scatterRows_length (m : List (List ℚ)) (idx : List Nat)
    (rows : List (List ℚ)) : (scatterRows m idx rows).length = m.length := by
  induction idx generalizing m rows with
  | nil => cases rows <;> simp [scatterRows]
  | cons j js ih =>
    cases rows with
    | nil => simp [scatterRows]
    | cons r rs => simpa [scatterRows] using ih (m.set j r) rs

theorem scatterRows_getElem?_of_notMem (m : List (List ℚ)) (idx : List Nat)
    (rows : List (List ℚ)) (i : Nat) (hi : i ∉ idx) :
    (scatterRows m idx rows)[i]? = m[i]? := by
  induction idx generalizing m rows with
  | nil => cases rows <;> simp [scatterRows]
  | cons j js ih =>
    cases rows with
    | nil => simp [scatterRows]
    | cons r rs =>
      have hij : i ≠ j := fun h => hi (h ▸ List.mem_cons_self j js)
      have his : i ∉ js := fun h => hi (List.mem_cons_of_mem j h)
      rw [show scatterRows m (j :: js) (r :: rs) = scatterRows (m.set j r) js rs from rfl]
      rw [ih (m.set j r) rs his]
      exact List.getElem?_set_ne (fun h => hij h.symm)

theorem subsetByIdx_cons (ds : List α) (j : Nat) (js : List Nat)
    (h : j < ds.length) : subsetByIdx ds (j :: js) = ds[j] :: subsetByIdx ds js := by
  simp [subsetByIdx, List.getElem?_eq_getElem h]

theorem scatterRows_pred_getElem? (ds : List α) (pred : α → List ℚ)
    (idx : List Nat) (m : List (List ℚ)) (i : Nat)
    (hnd : idx.Nodup) (hb : ∀ j ∈ idx, j < ds.length)
    (hm : m.length = ds.length) (hi : i ∈ idx) :
    (scatterRows m idx ((subsetByIdx ds idx).map pred))[i]? = ds[i]?.map pred := by
  induction idx generalizing m with
  | nil => cases hi
  | cons j js ih =>
    have hj : j < ds.length := hb j (List.mem_cons_self j js)
    rw [subsetByIdx_cons ds j js hj, List.map_cons]
    rw [show scatterRows m (j :: js) (pred ds[j] :: (subsetByIdx ds js).map pred) =
        scatterRows (m.set j (pred ds[j])) js ((subsetByIdx ds js).map pred) from rfl]
    rcases List.mem_cons.mp hi with rfl | his
    · have hnotin : i ∉ js := (List.nodup_cons.mp hnd).1
      rw [scatterRows_getElem?_of_notMem _ _ _ _ hnotin]
      rw [List.getElem?_set_self (by omega)]
      rw [List.getElem?_eq_getElem hj]
      rfl
    · exact ih (m.set j (pred ds[j])) (List.nodup_cons.mp hnd).2
        (fun t ht => hb t (List.mem_cons_of_mem j ht))
        (by simpa using hm) his

theorem cvStep_length (ds : List α) (model : Model α σ) (m : List (List ℚ))
    (s : List Nat × List Nat) : (cvStep ds model m s).length = m.length :=
  scatterRows_length m s.2 _

theorem foldl_cvStep_preserve (ds : List α) (model : Model α σ)
    (splits : List (List Nat × List Nat)) (m : List (List ℚ)) (i : Nat)
    (h : ∀ s ∈ splits, i ∉ s.2) :
    (splits.foldl (cvStep ds model) m)[i]? = m[i]? := by
  induction splits generalizing m with
  | nil => rfl
  | cons s ss ih =>
    rw [List.foldl_cons]
    rw [ih (cvStep ds model m s) (fun t ht => h t (List.mem_cons_of_mem s ht))]
    exact scatterRows_getElem?_of_notMem m s.2 _ i (h s (List.mem_cons_self s ss))

theorem holdout_fold_unique (splits : List (List Nat × List Nat))
    (hdis : splits.Pairwise (fun a b => ∀ j ∈ a.2, j ∉ b.2))
    (f t : List Nat × List Nat) (hf : f ∈ splits) (ht : t ∈ splits)
    (i : Nat) (hif : i ∈ f.2) (hit : i ∈ t.2) : t = f := by
  induction splits with
  | nil => cases hf
  | cons s ss ih =>
    have hd := List.pairwise_cons.mp hdis
    rcases List.mem_cons.mp hf with rfl | hf2
    · rcases List.mem_cons.mp ht with rfl | ht2
      · rfl
      · exact absurd hit (hd.1 t ht2 i hif)
    · rcases List.mem_cons.mp ht with rfl | ht2
      · exact absurd hif (hd.1 f hf2 i hit)
      · exact ih hd.2 hf2 ht2

theorem foldl_cvStep_row (ds : List α) (model : Model α σ)
    (splits : List (List Nat × List Nat)) (f : List Nat × List Nat) (i : Nat)
    (hih : i ∈ f.2) (hnd : f.2.Nodup) (hb : ∀ j ∈ f.2, j < ds.length)
    (m : List (List ℚ)) (hm : m.length = ds.length) (hf : f ∈ splits)
    (hdis : splits.Pairwise (fun a b => ∀ j ∈ a.2, j ∉ b.2)) :
    (splits.foldl (cvStep ds model) m)[i]? =
      ds[i]?.map (fun a =>
        model.predictF (model.fitF model.init (subsetByIdx ds f.1)) a) := by
  induction splits generalizing m with
  | nil => cases hf
  | cons s ss ih =>
    rw [List.foldl_cons]
    have hd := List.pairwise_cons.mp hdis
    rcases List.mem_cons.mp hf with rfl | hfs
    · rw [foldl_cvStep_preserve ds model ss _ i (fun t ht => hd.1 t ht i hih)]
      exact scatterRows_pred_getElem? ds
        (model.predictF (model.fitF model.init (subsetByIdx ds f.1)))
        f.2 m i hnd hb hm hih
    · exact ih (cvStep ds model m s) ((cvStep_length ds model m s).trans hm) hfs hd.2

/-- Claim C6 (confirmed): under the partition contract of the external
splitter — the holdout lists of distinct folds are disjoint, the holdout of
fold f is duplicate-free and in range, and i is not among the training
indices of its own fold — the probability row of sample i equals the
prediction of a model whose state is the initial untrained state fitted
exactly once, on the training subset view of the one fold holding i out: a
fresh clone per fold, never a continued prior fold model. Moreover the fold
holding i out is unique, so the row is written exactly once. -/
theorem cv_row_leakage_free (ds : List α) (model : Model α σ)
    (num_classes : Nat) (splits : List (List Nat × List Nat))
    (f : List Nat × List Nat) (i : Nat)
    (hf : f ∈ splits) (hih : i ∈ f.2) (hnd : f.2.Nodup)
    (hb : ∀ j ∈ f.2, j < ds.length)
    (hdis : splits.Pairwise (fun a b => ∀ j ∈ a.2, j ∉ b.2))
    (hleak : i ∉ f.1) :
    (estimateFromSplits ds model num_classes splits)[i]? =
      ds[i]?.map (fun a =>
        model.predictF (model.fitF model.init (subsetByIdx ds f.1)) a) ∧
    i ∉ f.1 ∧ (∀ t ∈ splits, i ∈ t.2 → t = f) :=
  ⟨foldl_cvStep_row ds model splits f i hih hnd hb _ (by simp) hf hdis,
   hleak,
   fun t ht hit => holdout_fold_unique splits hdis f t hf ht i hih hit⟩

theorem cv_row_leakage_free_witness :
    (estimateFromSplits [10, 20, 30, 40] mList 2 splitsW)[2]? =
      (([10, 20, 30, 40] : List Nat)[2]?).map (fun a =>
        mList.predictF (mList.fitF mList.init (subsetByIdx [10, 20, 30, 40] foldW.1)) a) ∧
    2 ∉ foldW.1 ∧ (∀ t ∈ splitsW, 2 ∈ t.2 → t = foldW) :=
  cv_row_leakage_free [10, 20, 30, 40] mList 2 splitsW foldW 2 (by decide)
    (by decide) (by decide) (by decide) (by decide) (by decide)

/-- Claim C3 counterexample: with a fold split whose holdouts do not cover
index 1, the estimator returns the matrix with row 1 still the all-zero
initialization row and raises nothing — the source contains no post-loop
completeness check and no InternalConsistencyError (the identifier does not
occur in the code). -/
theorem cv_no_internal_consistency_check_cex :
    (∀ s ∈ estimatorSplits 2 [0] [0, 0], 1 ∉ s.2) ∧
    (estimate_cv_predicted_probabilities [5, 6] [0, 0] mA 2 2 false [0]).1 =
      [[2, 5], [0, 0]] ∧
    (estimate_cv_predicted_probabilities [5, 6] [0, 0] mA 2 2 false [0]).1[1]? =
      some (List.replicate 2 0) := by decide

/-- Claim C3 amended: the estimator performs no completeness check after the
cross-validation loop: a row covered by no holdout fold remains the all-zero
initialization row and the matrix is returned without any error. -/
theorem cv_uncovered_row_stays_zero (ds : List α) (labels : List Nat)
    (model : Model α σ) (folds num_classes : Nat) (v : Bool) (rng : List Nat)
    (i : Nat) (hi : i < ds.length)
    (hcov : ∀ s ∈ estimatorSplits folds rng labels, i ∉ s.2) :
    ((estimate_cv_predicted_probabilities ds labels model folds num_classes v rng).1)[i]? =
      some (List.replicate num_classes 0) := by
  have h := foldl_cvStep_preserve ds model (estimatorSplits folds rng labels)
    (List.replicate ds.length (List.replicate num_classes 0)) i hcov
  have h2 : (estimateFromSplits ds model num_classes
      (estimatorSplits folds rng labels))[i]? = some (List.replicate num_classes 0) := by
    rw [estimateFromSplits, h, List.getElem?_replicate_of_lt hi]
  exact h2

theorem cv_uncovered_row_stays_zero_witness :
    ((estimate_cv_predicted_probabilities [5, 6] [0, 0] mA 2 2 false [0]).1)[1]? =
      some (List.replicate 2 0) :=
  cv_uncovered_row_stays_zero [5, 6] [0, 0] mA 2 2 false [0] 1 (by decide) (by decide)

/-! Lemmas about branch switching and the write step. -/

theorem checkoutOrCreate_eq (ds : HubDataset α) (b : String) :
    checkoutOrCreate ds b =
      if ds.branches.contains b then { ds with branch := b }
      else { ds with branches := b :: ds.branches, branch := b } := by
  by_cases h : b ∈ ds.branches <;> simp [checkoutOrCreate, checkout, h]

theorem checkoutOrCreate_branch (ds : HubDataset α) (b : String) :
    (checkoutOrCreate ds b).branch = b := by
  rw [checkoutOrCreate_eq]; split_ifs <;> rfl

theorem checkoutOrCreate_tensorNames (ds : HubDataset α) (b : String) :
    (checkoutOrCreate ds b).tensorNames = ds.tensorNames := by
  rw [checkoutOrCreate_eq]; split_ifs <;> rfl

theorem checkoutOrCreate_contains (ds : HubDataset α) (b c : String)
    (h : ds.branches.contains c = true) :
    (checkoutOrCreate ds b).branches.contains c = true := by
  rw [checkoutOrCreate_eq]; split_ifs <;> simp_all

theorem clit_error (ds : HubDataset α) (li : List Bool) (lqs : List ℚ)
    (pl : List Nat) (h : ds.tensorNames.contains labelIssuesGroup = true) :
    create_label_issues_tensors ds li lqs pl false =
      .error .tensorAlreadyExistsError := by
  have hm : labelIssuesGroup ∈ ds.tensorNames := by simpa using h
  simp [create_label_issues_tensors, hm]

theorem clit_ok_eq (ds : HubDataset α) (li : List Bool) (lqs : List ℚ)
    (pl : List Nat) (ow : Bool)
    (h : ds.tensorNames.contains labelIssuesGroup = false) :
    create_label_issues_tensors ds li lqs pl ow =
      .ok { ds with
        tensorNames := insertName predictedLabelsName (insertName labelQualityScoresName
          (insertName isLabelIssueName (insertName labelIssuesGroup ds.tensorNames))),
        is_label_issue := li, label_quality_scores := lqs, predicted_labels := pl } := by
  have hm : labelIssuesGroup ∉ ds.tensorNames := by simpa using h
  simp [create_label_issues_tensors, hm]

/-- Claim C1 counterexample: on a writable dataset whose active branch is
main and whose label_issues tensor group already exists, calling clean_labels
with create_tensors true, overwrite false and target branch fix makes the
write step raise, and clean_labels propagates the error with the dataset
still on branch fix: the active branch is not restored to the branch active
before the call, so restoration does not run on the exceptional exit path
(there is no try/finally around lines 116-128). -/
theorem branch_not_restored_on_failure_cex :
    dsMain.branch = mainBranch ∧
    (clean_labels gliA dsMain true false (some fixBranch) false).1.branch = fixBranch ∧
    (clean_labels gliA dsMain true false (some fixBranch) false).2.2 =
      .error .tensorAlreadyExistsError := by decide

/-- Claim C1 amended: the branch restoration of clean_labels runs only on the
non-exceptional path. With create_tensors true and a non-empty target branch:
when the tensor group already exists and overwrite is false, the write step
raises TensorAlreadyExistsError and the call returns with the dataset left on
the target branch; only when the write step succeeds is the active branch
restored to the branch active before the call. -/
theorem branch_restored_only_on_success
    (gli : HubDataset α → (List Bool × List ℚ × List Nat) × List LogEntry)
    (ds : HubDataset α) (b : String) (v : Bool)
    (hb : (b == "") = false) (hro : ds.read_only = false)
    (hmem : ds.branches.contains ds.branch = true) :
    (ds.tensorNames.contains labelIssuesGroup = true →
      (clean_labels gli ds true false (some b) v).1.branch = b ∧
      (clean_labels gli ds true false (some b) v).2.2 =
        .error .tensorAlreadyExistsError) ∧
    (ds.tensorNames.contains labelIssuesGroup = false →
      (clean_labels gli ds true false (some b) v).1.branch = ds.branch ∧
      (∃ r, (clean_labels gli ds true false (some b) v).2.2 = .ok r)) := by
  have htr : branchTruthy (some b) = true := by simp [branchTruthy, hb]
  constructor
  · intro hex
    have hex1 : (checkoutOrCreate ds b).tensorNames.contains labelIssuesGroup = true := by
      rw [checkoutOrCreate_tensorNames]; exact hex
    simp [clean_labels, hro, htr, clit_error _ _ _ _ hex1, checkoutOrCreate_branch]
  · intro hnex
    have hnex1 : (checkoutOrCreate ds b).tensorNames.contains labelIssuesGroup = false := by
      rw [checkoutOrCreate_tensorNames]; exact hnex
    have hmem1 : ds.branch ∈ (checkoutOrCreate ds b).branches := by
      simpa using checkoutOrCreate_contains ds b ds.branch hmem
    have hok := clit_ok_eq (checkoutOrCreate ds b) (gli (checkoutOrCreate ds b)).1.1
      (gli (checkoutOrCreate ds b)).1.2.1 (gli (checkoutOrCreate ds b)).1.2.2 false hnex1
    constructor
    · simp [clean_labels, hro, htr, hok, restorePhase, checkout, hmem1]
    · exact ⟨(gli (checkoutOrCreate ds b)).1,
        by simp [clean_labels, hro, htr, hok, restorePhase, checkout, hmem1]⟩

theorem branch_restored_only_on_success_witness :
    ((clean_labels gliA dsMain true false (some fixBranch) false).1.branch = fixBranch ∧
      (clean_labels gliA dsMain true false (some fixBranch) false).2.2 =
        .error .tensorAlreadyExistsError) ∧
    ((clean_labels gliA dsIssue true false (some fixBranch) false).1.branch = dsIssue.branch ∧
      (∃ r, (clean_labels gliA dsIssue true false (some fixBranch) false).2.2 = .ok r)) :=
  ⟨(branch_restored_only_on_success gliA dsMain fixBranch false (by decide) (by decide)
      (by decide)).1 (by decide),
   (branch_restored_only_on_success gliA dsIssue fixBranch false (by decide) (by decide)
      (by decide)).2 (by decide)⟩

end HubCleanlab
